import Mathlib

/- Shallow embedding of the booking / payment / review / geo-search core of the
   servive-finder Django backend (apps `servicemgmt` and `usermgmt`).

   Conventions of the embedding:
   * Django model rows become Lean structures; only the fields the verified
     properties touch are carried.
   * `Model.save` hooks become pure state transformers taking the current
     wall-clock time `now : Nat` (standing for `timezone.now()`).
   * Status / method / notification-type enumerations are the exact strings
     of the source.
   * Decimal and float values become `ℚ`; the transcendental haversine
     computation is over `ℝ` (the one place the code does float trig).
   * Python truthiness of an optional numeric (`if x:` / `all([...])`) is
     `pyTruthy`: `None` and `0` are falsy.
   * The fake gateway's `random.random()` draw is passed in as `r : ℚ`, the
     uuid-derived transaction tokens as explicit strings, and an `Effects`
     record reports whether the random source was consulted and how long
     `time.sleep` blocked. -/

namespace ServiceFinder

/-- Python truthiness of an optional numeric value: `None` and `0` are falsy. -/
def pyTruthy (x : Option ℚ) : Bool :=
  match x with
  | none => false
  | some q => q != 0

/-- Status choices of `ServiceBooking.BOOKING_STATUS` (models.py 15-22). -/
def BOOKING_STATUS : List String :=
  ["pending", "confirmed", "in_progress", "completed", "cancelled", "rejected"]

/-- One `ServiceBooking` row (servicemgmt/models.py 11-90), restricted to the
fields the verified properties use.  `serviceOwner` is the `provider` field of
the booked `usermgmt.ProviderService` row (the service's listing owner), which
need not coincide with the booking's own `provider` field. -/
structure Booking where
  customer : Nat
  provider : Nat
  serviceOwner : Nat
  customerName : String
  providerName : String
  status : String
  payment_status : String
  quoted_price : ℚ
  confirmed_at : Option Nat
  completed_at : Option Nat
  cancelled_at : Option Nat
  hasReview : Bool
deriving DecidableEq

/-- The `ServiceBooking.save` override (models.py 71-80): before persisting,
set the status timestamp that matches the current status, only when it is not
already set. -/
def bookingSave (b : Booking) (now : Nat) : Booking :=
  if b.status = "confirmed" ∧ b.confirmed_at = none then
    { b with confirmed_at := some now }
  else if b.status = "completed" ∧ b.completed_at = none then
    { b with completed_at := some now }
  else if b.status = "cancelled" ∧ b.cancelled_at = none then
    { b with cancelled_at := some now }
  else b

/-- The `ServiceBooking.can_be_reviewed` property (models.py 82-85). -/
def canBeReviewed (b : Booking) : Bool :=
  b.status = "completed" ∧ ¬ b.hasReview

/-- One `Notification` row as emitted by the core (models.py 306-334):
recipient, type tag, title, message. -/
structure Notification where
  user : Nat
  notification_type : String
  title : String
  message : String
deriving DecidableEq

/-- The booking-update path `ServiceBookingDetailView.perform_update`
(views.py 186-219): persist the requested status through the model save hook,
then, when the status actually changed, emit the notification that matches the
new status — `confirmed`, `completed` and `cancelled` notify the customer;
any other new status emits nothing. -/
def performUpdate (b : Booking) (newStatus : String) (now : Nat) :
    Booking × List Notification :=
  let oldStatus := b.status
  let b2 := bookingSave { b with status := newStatus } now
  let notifs :=
    if oldStatus ≠ newStatus then
      if newStatus = "confirmed" then
        [⟨b2.customer, "booking_confirmed", "Booking Confirmed",
          "Your booking with " ++ b2.providerName ++ " has been confirmed"⟩]
      else if newStatus = "completed" then
        [⟨b2.customer, "booking_completed", "Booking Completed",
          "Your booking with " ++ b2.providerName ++ " has been completed"⟩]
      else if newStatus = "cancelled" then
        [⟨b2.customer, "booking_cancelled", "Booking Cancelled",
          "Your booking with " ++ b2.providerName ++ " has been cancelled"⟩]
      else []
    else []
  (b2, notifs)

/-- Notification emitted by `ServiceBookingListCreateView.perform_create`
(views.py 154-168) right after a booking is created. -/
def performCreateBookingNotifs (b : Booking) : List Notification :=
  [⟨b.provider, "booking_request", "New Booking Request",
    "You have a new booking request from " ++ b.customerName⟩]

/-- The `cancel_booking` endpoint (views.py 522-554): the lookup only matches
the acting customer's own booking in status `pending` or `confirmed`
(otherwise 404), then forces status `cancelled` through the save hook and
notifies the provider. -/
def cancelBooking (b : Booking) (userId : Nat) (now : Nat) :
    Option (Booking × List Notification) :=
  if b.customer = userId ∧ (b.status = "pending" ∨ b.status = "confirmed") then
    let b2 := bookingSave { b with status := "cancelled" } now
    some (b2,
      [⟨b2.provider, "booking_cancelled", "Booking Cancelled",
        "Booking from " ++ b2.customerName ++ " has been cancelled"⟩])
  else none

/-- One `Payment` row (models.py 149-210), fields used by the properties. -/
structure Payment where
  customer : Nat
  amount : ℚ
  payment_method : String
  status : String
  transaction_id : Option String
  gateway_response : Option (List (String × String))
  failure_reason : Option String
  processed_at : Option Nat
  completed_at : Option Nat
  failed_at : Option Nat
deriving DecidableEq

/-- The `Payment.save` override (models.py 195-210): set the timestamp of the
current status when not already set, and on first reaching a terminal status
push the matching `payment_status` onto the parent booking (which goes through
the booking's own save hook). -/
def paymentSave (p : Payment) (b : Booking) (now : Nat) : Payment × Booking :=
  if p.status = "processing" ∧ p.processed_at = none then
    ({ p with processed_at := some now }, b)
  else if p.status = "completed" ∧ p.completed_at = none then
    ({ p with completed_at := some now },
      bookingSave { b with payment_status := "paid" } now)
  else if p.status = "failed" ∧ p.failed_at = none then
    ({ p with failed_at := some now },
      bookingSave { b with payment_status := "failed" } now)
  else (p, b)

/-- Observable side channel of a payment-processing run: whether the
`random.random()` outcome source was consulted, and the seconds spent in
`time.sleep`. -/
structure Effects where
  randomConsulted : Bool
  delaySeconds : Nat
deriving DecidableEq

/-- The `Payment.process_fake_payment` simulation (models.py 212-248): move to
`processing` with a fresh `TXN_`-prefixed transaction id and save, sleep one
second, then draw `r = random.random()`; with `r < 0.9` finish `completed`
with the success payload, otherwise finish `failed` with the fixed failure
reason and payload.  Each save goes through `paymentSave`, so the terminal
write also updates the parent booking.  `txnTok` stands for
`uuid4().hex[:12].upper()` and `now` for the timestamps taken during the run;
the Python dict payloads become association lists in source key order. -/
def processFakePayment (p : Payment) (b : Booking) (r : ℚ) (txnTok : String)
    (now : Nat) : Payment × Booking × Effects :=
  let txn := "TXN_" ++ txnTok
  let p1 := { p with status := "processing", transaction_id := some txn }
  let s1 := paymentSave p1 b now
  let pa := s1.1
  let ba := s1.2
  if r < 9/10 then
    let p2 := { pa with
      status := "completed",
      gateway_response := some
        [("status", "success"), ("transaction_id", txn),
         ("message", "Payment processed successfully"),
         ("gateway", "FakePaymentGateway"), ("timestamp", toString now)] }
    let s2 := paymentSave p2 ba now
    (s2.1, s2.2, ⟨true, 1⟩)
  else
    let p2 := { pa with
      status := "failed",
      failure_reason := some "Insufficient funds or card declined",
      gateway_response := some
        [("status", "failed"), ("error_code", "CARD_DECLINED"),
         ("message", "Insufficient funds or card declined"),
         ("gateway", "FakePaymentGateway"), ("timestamp", toString now)] }
    let s2 := paymentSave p2 ba now
    (s2.1, s2.2, ⟨true, 1⟩)

/-- A freshly created `Payment` row in status `pending`
(`Payment.objects.create` / serializer create with the model defaults). -/
def newPayment (customer : Nat) (amount : ℚ) (method : String) : Payment :=
  { customer := customer, amount := amount, payment_method := method,
    status := "pending", transaction_id := none, gateway_response := none,
    failure_reason := none, processed_at := none, completed_at := none,
    failed_at := none }

/-- The fixed gateway payload recorded for a cash payment in
`ProcessPaymentView.post` (views.py 313-317). -/
def cashPayload : List (String × String) :=
  [("status", "success"), ("message", "Cash payment recorded"),
   ("payment_method", "cash")]

/-- The `ProcessPaymentView.post` endpoint (views.py 272-324): the lookup only
matches the acting customer's own booking in status `confirmed` or `completed`
(else 404); a booking that already has a completed payment is refused; then a
pending payment over the quoted price is created and processed — `cash` is
marked `completed` immediately with a `CASH_`-prefixed transaction id and the
fixed cash payload (no random draw, no sleep), every other method runs the
fake-gateway simulation.  `hasCompletedPayment` is the
`Payment.objects.filter(booking=..., status=completed).exists()` lookup. -/
def processPaymentPost (b : Booking) (userId : Nat) (method : String)
    (hasCompletedPayment : Bool) (r : ℚ) (tok : String) (now : Nat) :
    Except String (Payment × Booking × Effects) :=
  if ¬ (b.customer = userId ∧ (b.status = "confirmed" ∨ b.status = "completed")) then
    .error "Booking not found or not eligible for payment"
  else if hasCompletedPayment then
    .error "Payment already completed for this booking"
  else
    let p0 := newPayment userId b.quoted_price method
    if method = "cash" then
      let p1 := { p0 with
        status := "completed",
        transaction_id := some ("CASH_" ++ tok),
        gateway_response := some cashPayload }
      let s1 := paymentSave p1 b now
      .ok (s1.1, s1.2, ⟨false, 0⟩)
    else
      .ok (processFakePayment p0 b r tok now)

/-- The `PaymentSerializer.validate` checks (serializers.py 204-222), in
source order. -/
def paymentSerializerValidate (b : Booking) (customer : Nat) (amount : ℚ) :
    Except String Unit :=
  if customer ≠ b.customer then
    .error "Can only pay for your own bookings"
  else if ¬ (b.status = "confirmed" ∨ b.status = "completed") then
    .error "Can only pay for confirmed bookings"
  else if amount ≠ b.quoted_price then
    .error "Payment amount must match booking price"
  else .ok ()

/-- The `PaymentListCreateView.perform_create` path (views.py 245-269): after
serializer validation the pending payment is saved and then *always* run
through `process_fake_payment` — the payment method is not consulted here, so
cash payments also take the randomized simulation on this path.  On success a
`payment_received` notification goes to the booking's provider. -/
def paymentPerformCreate (b : Booking) (customer : Nat) (amount : ℚ)
    (method : String) (r : ℚ) (tok : String) (now : Nat) :
    Except String (Payment × Booking × List Notification × Effects) :=
  match paymentSerializerValidate b customer amount with
  | .error e => .error e
  | .ok _ =>
      let p0 := newPayment customer amount method
      let res := processFakePayment p0 b r tok now
      let notifs :=
        if res.1.status = "completed" then
          [⟨b.provider, "payment_received", "Payment Received",
            "Payment of $" ++ toString amount ++ " received from " ++
              b.customerName⟩]
        else []
      .ok (res.1, res.2.1, notifs, res.2.2)

/-- One `Review` row (models.py 93-146), fields used by the properties:
the booking's provider, the owner of the reviewed service (the `provider`
field of the linked `ProviderService`), and the overall 1-5 star rating. -/
structure Review where
  provider : Nat
  serviceProvider : Nat
  rating : Nat
deriving DecidableEq

/-- The `ReviewSerializer.validate` checks (serializers.py 139-157), in
source order: booking must be `completed`, the acting customer must be the
booking's customer, and the booking must not already have a review — each
violation with its own message. -/
def reviewValidate (b : Booking) (customer : Nat) : Except String Unit :=
  if b.status ≠ "completed" then
    .error "Can only review completed bookings"
  else if customer ≠ b.customer then
    .error "Can only review your own bookings"
  else if b.hasReview then
    .error "Booking already has a review"
  else .ok ()

/-- The `ReviewSerializer.create` path together with its `validate` gate
(serializers.py 139-179): on success the review copies provider and service
from the booking and a `review_received` notification goes to the provider. -/
def reviewCreate (b : Booking) (customer : Nat) (rating : Nat)
    (customerName : String) : Except String (Review × List Notification) :=
  match reviewValidate b customer with
  | .error e => .error e
  | .ok _ =>
      let rv : Review := ⟨b.provider, b.serviceOwner, rating⟩
      .ok (rv,
        [⟨b.provider, "review_received", "New Review Received",
          "You received a " ++ toString rating ++ "-star review from " ++
            customerName⟩])

/-- Sum of the overall ratings of a list of reviews, as the exact rational
value behind the SQL `Avg` aggregate. -/
def ratingSum (rs : List Review) : ℚ :=
  rs.foldr (fun rv acc => (rv.rating : ℚ) + acc) 0

/-- The persisted aggregate fields of a `ServiceProviderProfile`
(usermgmt/models.py 60-98): `average_rating` and `total_reviews`. -/
structure ProviderProfile where
  average_rating : ℚ
  total_reviews : Nat
deriving DecidableEq

/-- The `ServiceProviderProfile.update_rating` recomputation
(usermgmt/models.py 86-98): it aggregates over
`Review.objects.filter(service__provider=self.user)` — the reviews whose
*service* is owned by the user, not the reviews whose `provider` field is the
user — and persists average and count (zeros when there are none). -/
def update_rating (user : Nat) (reviews : List Review) : ProviderProfile :=
  let rs := reviews.filter (fun rv => rv.serviceProvider == user)
  if rs.length ≠ 0 then
    ⟨ratingSum rs / (rs.length : ℚ), rs.length⟩
  else ⟨0, 0⟩

/-- The `Review.save` override (servicemgmt/models.py 142-146): persist the
review (prepend to the review table, newest first) and, when the review's
provider has a provider profile, recompute that profile via `update_rating`.
`profile` is the review's provider's profile, `none` when the provider has no
`provider_profile` attribute. -/
def reviewModelSave (rv : Review) (reviews : List Review)
    (profile : Option ProviderProfile) :
    List Review × Option ProviderProfile :=
  let reviews2 := rv :: reviews
  match profile with
  | none => (reviews2, none)
  | some _ => (reviews2, some (update_rating rv.provider reviews2))

/-- A candidate row of the service search (views.py 47-53): a
`ProviderService` with the activity flags and the provider's registered home
coordinates (nullable decimals). -/
structure SearchService where
  sid : Nat
  isActive : Bool
  providerActive : Bool
  providerLat : Option ℚ
  providerLng : Option ℚ
deriving DecidableEq

/-- The queryset filter of `ServiceSearchView.post` (views.py 48-53): only
active services of active providers whose latitude and longitude are both
non-null enter the distance loop. -/
def candidateOk (s : SearchService) : Bool :=
  s.isActive && s.providerActive && s.providerLat.isSome && s.providerLng.isSome

/-- The bucket loop of `ServiceSearchView.post` (views.py 70-87) over the
filtered candidates, in list order: distance at most the radius goes to the
nearby bucket, otherwise distance at most 50 km goes to the distant bucket,
otherwise the service is dropped.  `distOf` is the per-candidate value of
`calculate_distance(origin, provider coords)` — the rounded haversine
distance, a plain rational since the calculator rounds to 2 decimals. -/
def searchBucketLoop (radius : ℚ) (distOf : SearchService → ℚ) :
    List SearchService → List SearchService × List SearchService
  | [] => ([], [])
  | s :: rest =>
      let acc := searchBucketLoop radius distOf rest
      if distOf s ≤ radius then (s :: acc.1, acc.2)
      else if distOf s ≤ 50 then (acc.1, s :: acc.2)
      else acc

/-- The search pipeline of `ServiceSearchView.post` up to the bucket
partition (views.py 47-87): queryset filter, then the distance loop.  The
subsequent per-bucket sort (views.py 89-102) only permutes each bucket, so
bucket membership is decided here. -/
def serviceSearch (radius : ℚ) (distOf : SearchService → ℚ)
    (services : List SearchService) :
    List SearchService × List SearchService :=
  searchBucketLoop radius distOf (services.filter candidateOk)

/-- The unrounded haversine computation shared by
`ServiceBookingSerializer.calculate_distance` (serializers.py 68-85) and
`ServiceSearchView.calculate_distance` (views.py 122-136): convert the four
decimal-degree inputs to radians, apply the haversine formula, scale by the
earth radius 6371 km.  The caller rounds this to 2 decimals. -/
noncomputable def haversineKm (lat1 lng1 lat2 lng2 : ℚ) : ℝ :=
  let l1 : ℝ := (lat1 : ℝ) * Real.pi / 180
  let g1 : ℝ := (lng1 : ℝ) * Real.pi / 180
  let l2 : ℝ := (lat2 : ℝ) * Real.pi / 180
  let g2 : ℝ := (lng2 : ℝ) * Real.pi / 180
  let dlat := l2 - l1
  let dlng := g2 - g1
  let a := Real.sin (dlat / 2) ^ 2 +
    Real.cos l1 * Real.cos l2 * Real.sin (dlng / 2) ^ 2
  let c := 2 * Real.arcsin (Real.sqrt a)
  c * 6371

/-- Python `round(x, 2)` on the embedding reals, returned as an exact
rational.  Python rounds exact half-cents to even while `round` here rounds
them up; every value this development evaluates it on is not an exact
half-cent, where the two conventions agree. -/
noncomputable def pyRound2 (x : ℝ) : ℚ := (round (100 * x) : ℤ) / 100

/-- Python `int(...)` truncation toward zero, on an exact rational. -/
def pyIntQ (q : ℚ) : ℤ := if 0 ≤ q then ⌊q⌋ else ⌈q⌉

/-- The `ServiceBookingSerializer.calculate_distance` method
(serializers.py 68-85): `None` when any of the four float inputs is falsy
(the guard is `not all([...])`, so `0.0` counts as missing), otherwise the
haversine distance rounded to 2 decimals. -/
noncomputable def calculate_distance (clat clng plat plng : ℚ) : Option ℚ :=
  if clat = 0 ∨ clng = 0 ∨ plat = 0 ∨ plng = 0 then none
  else some (pyRound2 (haversineKm clat clng plat plng))

/-- The distance block of `ServiceBookingSerializer.create`
(serializers.py 87-112): when the service-address coordinates and the
provider's home coordinates are all truthy, set `distance_km` from the
calculator, and when that distance is itself truthy set the travel-time
string to `int(distance / 30 * 60)` minutes (30 km/h average speed);
otherwise both fields stay `None`.  The result is the pair
`(distance_km, estimated_travel_time)`. -/
noncomputable def bookingCreateDistance (slat slng plat plng : Option ℚ) :
    Option ℚ × Option String :=
  if pyTruthy slat && pyTruthy slng && pyTruthy plat && pyTruthy plng then
    let distance := calculate_distance (slat.getD 0) (slng.getD 0)
      (plat.getD 0) (plng.getD 0)
    let travel :=
      match distance with
      | some d =>
          if d ≠ 0 then
            some (toString (pyIntQ (d / 30 * 60)) ++ " minutes")
          else none
      | none => none
    (distance, travel)
  else (none, none)

/-- The aggregate that the specification describes for the provider rating:
arithmetic mean and count of the overall `rating` over all reviews whose
`provider` field is the given user (written from the spec's words, to be
compared with the source's `update_rating`). -/
def specProviderAggregate (user : Nat) (reviews : List Review) :
    ProviderProfile :=
  let rs := reviews.filter (fun rv => rv.provider == user)
  if rs.length ≠ 0 then
    ⟨ratingSum rs / (rs.length : ℚ), rs.length⟩
  else ⟨0, 0⟩

/-- A concrete booking fixture for the concrete-instance theorems: customer 7
books provider 9 (who owns the service) at the given status and review flag. -/
def bkFix (status : String) (hasReview : Bool) : Booking :=
  { customer := 7, provider := 9, serviceOwner := 9, customerName := "Ann",
    providerName := "Bob", status := status, payment_status := "pending",
    quoted_price := 150, confirmed_at := none, completed_at := none,
    cancelled_at := none, hasReview := hasReview }

/-- A concrete search-candidate fixture: active service of an active provider
at the given coordinates. -/
def svcFix (sid : Nat) (lat lng : Option ℚ) : SearchService :=
  { sid := sid, isActive := true, providerActive := true,
    providerLat := lat, providerLng := lng }

/-! Helper lemmas about the booking save hook: it only writes the three
status timestamps, every other field is untouched. -/

theorem bookingSave_status (b : Booking) (now : Nat) :
    (bookingSave b now).status = b.status := by
  unfold bookingSave; split_ifs <;> rfl

theorem bookingSave_payment_status (b : Booking) (now : Nat) :
    (bookingSave b now).payment_status = b.payment_status := by
  unfold bookingSave; split_ifs <;> rfl

theorem bookingSave_customer (b : Booking) (now : Nat) :
    (bookingSave b now).customer = b.customer := by
  unfold bookingSave; split_ifs <;> rfl

theorem bookingSave_provider (b : Booking) (now : Nat) :
    (bookingSave b now).provider = b.provider := by
  unfold bookingSave; split_ifs <;> rfl

/-- C2: a review is created iff the booking status is exactly `completed`,
the acting customer is the booking's customer, and the booking has no
existing review; each violated precondition has its own distinct validation
message, and a second review for the same booking always fails. -/
theorem C2_review_gate (b : Booking) (customer rating : Nat) (name : String) :
    ((reviewCreate b customer rating name).isOk = true ↔
      (b.status = "completed" ∧ customer = b.customer ∧ b.hasReview = false)) ∧
    (b.status ≠ "completed" →
      reviewCreate b customer rating name =
        .error "Can only review completed bookings") ∧
    (b.status = "completed" → customer ≠ b.customer →
      reviewCreate b customer rating name =
        .error "Can only review your own bookings") ∧
    (b.status = "completed" → customer = b.customer → b.hasReview = true →
      reviewCreate b customer rating name =
        .error "Booking already has a review") ∧
    (b.hasReview = true → (reviewCreate b customer rating name).isOk = false) ∧
    ("Can only review completed bookings" ≠ "Can only review your own bookings" ∧
      "Can only review completed bookings" ≠ "Booking already has a review" ∧
      "Can only review your own bookings" ≠ "Booking already has a review") := by
  unfold reviewCreate reviewValidate
  by_cases h1 : b.status = "completed" <;>
    by_cases h2 : customer = b.customer <;>
    by_cases h3 : b.hasReview <;>
    simp [h1, h2, h3, Except.isOk, Except.toBool]

/-- Closed instance of the review gate: a completed, unreviewed booking of
customer 7 is reviewable by customer 7, a pending one is refused with the
status message, and an already-reviewed one is refused with the
duplicate-review message. -/
theorem C2_review_gate_witness :
    (reviewCreate (bkFix "completed" false) 7 5 "Ann").isOk = true ∧
    reviewCreate (bkFix "pending" false) 7 5 "Ann" =
      .error "Can only review completed bookings" ∧
    reviewCreate (bkFix "completed" true) 7 5 "Ann" =
      .error "Booking already has a review" :=
  ⟨(C2_review_gate (bkFix "completed" false) 7 5 "Ann").1.mpr
      ⟨rfl, rfl, rfl⟩,
    (C2_review_gate (bkFix "pending" false) 7 5 "Ann").2.1 (by decide),
    (C2_review_gate (bkFix "completed" true) 7 5 "Ann").2.2.2.1 rfl rfl rfl⟩

/-- C4: the booking save hook sets `confirmed_at` on the first save with
status `confirmed` and never changes it once set (so later saves while the
status stays `confirmed` keep the original value), and likewise
`completed_at` for `completed` and `cancelled_at` for `cancelled`. -/
theorem C4_timestamps_once (b : Booking) (now t : Nat) :
    (b.status = "confirmed" → b.confirmed_at = none →
      (bookingSave b now).confirmed_at = some now) ∧
    (b.confirmed_at = some t → (bookingSave b now).confirmed_at = some t) ∧
    (b.status = "completed" → b.completed_at = none →
      (bookingSave b now).completed_at = some now) ∧
    (b.completed_at = some t → (bookingSave b now).completed_at = some t) ∧
    (b.status = "cancelled" → b.cancelled_at = none →
      (bookingSave b now).cancelled_at = some now) ∧
    (b.cancelled_at = some t → (bookingSave b now).cancelled_at = some t) := by
  unfold bookingSave
  split_ifs with h1 h2 h3 <;> simp_all

/-- Closed instance of the timestamp idempotence: the first confirmed save
stamps time 4, and a second confirmed save at time 9 keeps the stamp 4. -/
theorem C4_timestamps_once_witness :
    (bookingSave (bkFix "confirmed" false) 4).confirmed_at = some 4 ∧
    (bookingSave { bkFix "confirmed" false with confirmed_at := some 4 } 9).confirmed_at
      = some 4 :=
  ⟨(C4_timestamps_once (bkFix "confirmed" false) 4 0).1 rfl rfl,
    (C4_timestamps_once { bkFix "confirmed" false with confirmed_at := some 4 } 9 4).2.1
      rfl⟩

/-- C3: on the save that first reaches the terminal payment status, the
parent booking's `payment_status` is pushed to `paid` (for `completed`) or
`failed` (for `failed`), alongside the payment's own terminal timestamp. -/
theorem C3_payment_terminal_sync (p : Payment) (b : Booking) (now : Nat) :
    (p.status = "completed" → p.completed_at = none →
      (paymentSave p b now).2.payment_status = "paid" ∧
      (paymentSave p b now).1.completed_at = some now) ∧
    (p.status = "failed" → p.failed_at = none →
      (paymentSave p b now).2.payment_status = "failed" ∧
      (paymentSave p b now).1.failed_at = some now) := by
  unfold paymentSave
  split_ifs with h1 h2 h3 <;>
    simp_all [bookingSave_payment_status]

/-- Closed instance of the payment-booking synchronisation: completing a
pending-timestamp payment marks the fixture booking paid. -/
theorem C3_payment_terminal_sync_witness :
    (paymentSave { newPayment 7 150 "online" with status := "completed" }
        (bkFix "confirmed" false) 6).2.payment_status = "paid" ∧
    (paymentSave { newPayment 7 150 "online" with status := "failed" }
        (bkFix "confirmed" false) 6).2.payment_status = "failed" :=
  ⟨((C3_payment_terminal_sync { newPayment 7 150 "online" with status := "completed" }
      (bkFix "confirmed" false) 6).1 rfl rfl).1,
    ((C3_payment_terminal_sync { newPayment 7 150 "online" with status := "failed" }
      (bkFix "confirmed" false) 6).2 rfl rfl).1⟩

/-- C1 counterexample: the booking detail update path does change a terminal
status — a `completed` booking updated with status `pending` ends up
`pending`, so `completed` has an outbound transition. -/
theorem C1_counterexample :
    (bkFix "completed" false).status = "completed" ∧
    (performUpdate (bkFix "completed" false) "pending" 5).1.status = "pending" :=
  ⟨rfl, rfl⟩

/-- C1 amended: the update path enforces no terminal states — it writes
whatever valid status the request carries, regardless of the old status; only
the dedicated cancel endpoint refuses bookings already in
`completed`/`cancelled`/`rejected` (by its `pending`/`confirmed` lookup). -/
theorem C1_no_terminal_enforcement (b : Booking) (s : String) (u now : Nat)
    (_hs : s ∈ BOOKING_STATUS) :
    (performUpdate b s now).1.status = s ∧
    ((b.status = "completed" ∨ b.status = "cancelled" ∨ b.status = "rejected") →
      cancelBooking b u now = none) := by
  constructor
  · show (bookingSave { b with status := s } now).status = s
    rw [bookingSave_status]
  · intro hterm
    unfold cancelBooking
    rw [if_neg]
    rintro ⟨-, hst⟩
    rcases hterm with h | h | h <;> rw [h] at hst <;>
      rcases hst with h2 | h2 <;> simp at h2

/-- Closed instance: a completed booking is moved back to `pending` by the
update path, while the cancel endpoint refuses a rejected booking. -/
theorem C1_no_terminal_enforcement_witness :
    (performUpdate (bkFix "completed" false) "pending" 5).1.status = "pending" ∧
    cancelBooking (bkFix "rejected" false) 7 5 = none :=
  ⟨(C1_no_terminal_enforcement (bkFix "completed" false) "pending" 7 5
      (by decide)).1,
    (C1_no_terminal_enforcement (bkFix "rejected" false) "pending" 7 5
      (by decide)).2 (Or.inr (Or.inr rfl))⟩

/-- C7 counterexample: an actual status change (`pending` to `in_progress`)
through the update path emits no notification at all, not exactly one. -/
theorem C7_counterexample :
    (bkFix "pending" false).status ≠ "in_progress" ∧
    (performUpdate (bkFix "pending" false) "in_progress" 5).2 = [] :=
  ⟨by decide, rfl⟩

/-- C7 amended: a status change through the update path emits exactly one
customer-directed notification when the new status is `confirmed`,
`completed` or `cancelled` (with the matching type) and none otherwise;
booking creation emits one `booking_request` to the provider; and the cancel
endpoint's `booking_cancelled` notification goes to the provider, not the
customer. -/
theorem C7_notification_triggers (b : Booking) (s : String) (u now : Nat)
    (hch : b.status ≠ s) :
    (s = "confirmed" →
      (performUpdate b s now).2.map (fun n => (n.user, n.notification_type)) =
        [(b.customer, "booking_confirmed")]) ∧
    (s = "completed" →
      (performUpdate b s now).2.map (fun n => (n.user, n.notification_type)) =
        [(b.customer, "booking_completed")]) ∧
    (s = "cancelled" →
      (performUpdate b s now).2.map (fun n => (n.user, n.notification_type)) =
        [(b.customer, "booking_cancelled")]) ∧
    (s ≠ "confirmed" → s ≠ "completed" → s ≠ "cancelled" →
      (performUpdate b s now).2 = []) ∧
    ((performCreateBookingNotifs b).map (fun n => (n.user, n.notification_type)) =
      [(b.provider, "booking_request")]) ∧
    (b.customer = u → (b.status = "pending" ∨ b.status = "confirmed") →
      (cancelBooking b u now).map
          (fun x => x.2.map (fun n => (n.user, n.notification_type))) =
        some [(b.provider, "booking_cancelled")]) := by
  refine ⟨?_, ?_, ?_, ?_, ?_, ?_⟩
  · rintro rfl
    simp [performUpdate, hch, bookingSave_customer]
  · rintro rfl
    simp [performUpdate, hch, bookingSave_customer]
  · rintro rfl
    simp [performUpdate, hch, bookingSave_customer]
  · intro h1 h2 h3
    simp [performUpdate, hch, h1, h2, h3]
  · simp [performCreateBookingNotifs]
  · intro hcu hst
    simp only [cancelBooking]
    rw [if_pos ⟨hcu, hst⟩]
    simp [bookingSave_provider]

/-- Closed instance of the notification triggers: confirming a pending
booking notifies customer 7 with `booking_confirmed`, moving it to
`in_progress` notifies nobody, and cancelling it through the cancel endpoint
notifies provider 9. -/
theorem C7_notification_triggers_witness :
    (performUpdate (bkFix "pending" false) "confirmed" 5).2.map
        (fun n => (n.user, n.notification_type)) = [(7, "booking_confirmed")] ∧
    (performUpdate (bkFix "pending" false) "in_progress" 5).2 = [] ∧
    (cancelBooking (bkFix "pending" false) 7 5).map
        (fun x => x.2.map (fun n => (n.user, n.notification_type))) =
      some [(9, "booking_cancelled")] :=
  ⟨(C7_notification_triggers (bkFix "pending" false) "confirmed" 7 5
      (by decide)).1 rfl,
    (C7_notification_triggers (bkFix "pending" false) "in_progress" 7 5
      (by decide)).2.2.2.1 (by decide) (by decide) (by decide),
    (C7_notification_triggers (bkFix "pending" false) "in_progress" 7 5
      (by decide)).2.2.2.2.2 rfl (Or.inl rfl)⟩

/-- C5 counterexample: a payment with method `cash` created through the
payment list-create endpoint is still run through the random simulation — at
random draw 19/20 it ends `failed` after consulting the random source and
sleeping one second, so cash processing is not deterministic on every path. -/
theorem C5_counterexample :
    ((paymentPerformCreate (bkFix "confirmed" false) 7 150 "cash" (19/20)
          "T1" 5).toOption.map
        (fun x => (x.1.payment_method, x.1.status, x.2.2.2))) =
      some ("cash", "failed", ⟨true, 1⟩) := by
  have hlt : ¬ ((19 : ℚ)/20 < 9/10) := by norm_num
  simp [paymentPerformCreate, paymentSerializerValidate, processFakePayment,
    paymentSave, newPayment, bkFix, hlt]
  exact ⟨_, _, _, _, rfl, rfl, rfl, rfl⟩

/-- C5 amended: on the dedicated process-payment endpoint, a cash payment is
deterministic — the result does not depend on the random draw, it is
immediately `completed` with a `CASH_`-prefixed transaction id, the fixed
cash payload and no random consultation or delay.  (On the payment
list-create endpoint every method, cash included, takes the randomized
simulation.) -/
theorem C5_cash_deterministic (b : Booking) (u : Nat) (r r2 : ℚ)
    (tok : String) (now : Nat)
    (helig : b.customer = u ∧ (b.status = "confirmed" ∨ b.status = "completed")) :
    processPaymentPost b u "cash" false r tok now =
      processPaymentPost b u "cash" false r2 tok now ∧
    ∃ p b2,
      processPaymentPost b u "cash" false r tok now = .ok (p, b2, ⟨false, 0⟩) ∧
      p.status = "completed" ∧ p.transaction_id = some ("CASH_" ++ tok) ∧
      p.gateway_response = some cashPayload ∧ p.completed_at = some now := by
  have key : ∀ r3 : ℚ, processPaymentPost b u "cash" false r3 tok now =
      .ok ({ newPayment u b.quoted_price "cash" with
              status := "completed",
              transaction_id := some ("CASH_" ++ tok),
              gateway_response := some cashPayload,
              completed_at := some now },
            bookingSave { b with payment_status := "paid" } now, ⟨false, 0⟩) := by
    intro r3
    simp only [processPaymentPost]
    rw [if_neg (not_not_intro helig)]
    simp [paymentSave, newPayment]
  exact ⟨(key r).trans (key r2).symm,
    _, _, key r, rfl, rfl, rfl, rfl⟩

/-- Closed instance of cash determinism: two runs with different random
draws coincide on the fixture booking. -/
theorem C5_cash_deterministic_witness :
    processPaymentPost (bkFix "confirmed" false) 7 "cash" false (1/2) "T2" 5 =
      processPaymentPost (bkFix "confirmed" false) 7 "cash" false (19/20) "T2" 5 :=
  (C5_cash_deterministic (bkFix "confirmed" false) 7 (1/2) (19/20) "T2" 5
    ⟨rfl, Or.inl rfl⟩).1

/-- Helper: membership in the two buckets produced by the distance loop. -/
theorem searchBucketLoop_mem (radius : ℚ) (distOf : SearchService → ℚ)
    (l : List SearchService) (s : SearchService) :
    (s ∈ (searchBucketLoop radius distOf l).1 ↔
      s ∈ l ∧ distOf s ≤ radius) ∧
    (s ∈ (searchBucketLoop radius distOf l).2 ↔
      s ∈ l ∧ radius < distOf s ∧ distOf s ≤ 50) := by
  induction l with
  | nil => simp [searchBucketLoop]
  | cons h rest ih =>
      simp only [searchBucketLoop]
      split_ifs with h1 h2
      · constructor
        · simp only [List.mem_cons, ih.1]
          constructor
          · rintro (rfl | ⟨hm, hd⟩)
            · exact ⟨Or.inl rfl, h1⟩
            · exact ⟨Or.inr hm, hd⟩
          · rintro ⟨rfl | hm, hd⟩
            · exact Or.inl rfl
            · exact Or.inr ⟨hm, hd⟩
        · simp only [List.mem_cons, ih.2]
          constructor
          · rintro ⟨hm, hd⟩
            exact ⟨Or.inr hm, hd⟩
          · rintro ⟨rfl | hm, hd⟩
            · exact absurd h1 (not_le.mpr hd.1)
            · exact ⟨hm, hd⟩
      · constructor
        · simp only [List.mem_cons, ih.1]
          constructor
          · rintro ⟨hm, hd⟩
            exact ⟨Or.inr hm, hd⟩
          · rintro ⟨rfl | hm, hd⟩
            · exact absurd hd h1
            · exact ⟨hm, hd⟩
        · simp only [List.mem_cons, ih.2]
          constructor
          · rintro (rfl | ⟨hm, hd⟩)
            · exact ⟨Or.inl rfl, not_le.mp h1, h2⟩
            · exact ⟨Or.inr hm, hd⟩
          · rintro ⟨rfl | hm, hd⟩
            · exact Or.inl rfl
            · exact Or.inr ⟨hm, hd⟩
      · constructor
        · simp only [List.mem_cons, ih.1]
          constructor
          · rintro ⟨hm, hd⟩
            exact ⟨Or.inr hm, hd⟩
          · rintro ⟨rfl | hm, hd⟩
            · exact absurd hd h1
            · exact ⟨hm, hd⟩
        · simp only [List.mem_cons, ih.2]
          constructor
          · rintro ⟨hm, hd⟩
            exact ⟨Or.inr hm, hd⟩
          · rintro ⟨rfl | hm, hd⟩
            · exact absurd hd.2 h2
            · exact ⟨hm, hd⟩

/-- C6: a candidate with computed distance `d` lands in the nearby bucket
iff `d ≤ radius` (boundary inclusive), in the distant bucket iff
`radius < d ≤ 50`, in no bucket iff `d > 50`, and a service whose provider
has a null coordinate is excluded from both buckets by the candidate
filter.  `distOf` is the per-candidate rounded haversine distance computed
from the search origin. -/
theorem C6_search_partition (radius : ℚ) (distOf : SearchService → ℚ)
    (services : List SearchService) (s : SearchService)
    (_hr1 : 1 ≤ radius) (hr50 : radius ≤ 50) :
    (s ∈ (serviceSearch radius distOf services).1 ↔
      s ∈ services ∧ candidateOk s = true ∧ distOf s ≤ radius) ∧
    (s ∈ (serviceSearch radius distOf services).2 ↔
      s ∈ services ∧ candidateOk s = true ∧ radius < distOf s ∧ distOf s ≤ 50) ∧
    (50 < distOf s →
      s ∉ (serviceSearch radius distOf services).1 ∧
      s ∉ (serviceSearch radius distOf services).2) ∧
    (s.providerLat = none ∨ s.providerLng = none →
      s ∉ (serviceSearch radius distOf services).1 ∧
      s ∉ (serviceSearch radius distOf services).2) := by
  have hmem := searchBucketLoop_mem radius distOf (services.filter candidateOk) s
  have hf : s ∈ services.filter candidateOk ↔
      s ∈ services ∧ candidateOk s = true := List.mem_filter
  refine ⟨?_, ?_, ?_, ?_⟩
  · rw [serviceSearch, hmem.1, hf, and_assoc]
  · rw [serviceSearch, hmem.2, hf, and_assoc]
  · intro h50
    constructor
    · intro hin
      rw [serviceSearch] at hin
      exact absurd (le_trans (hmem.1.mp hin).2 hr50) (not_le.mpr h50)
    · intro hin
      rw [serviceSearch] at hin
      exact absurd (hmem.2.mp hin).2.2 (not_le.mpr h50)
  · intro hnull
    have hcand : candidateOk s = false := by
      rcases hnull with h | h <;> simp [candidateOk, h]
    constructor <;> intro hin <;> rw [serviceSearch] at hin
    · have := (hf.mp (hmem.1.mp hin).1).2
      rw [hcand] at this
      cases this
    · have := (hf.mp (hmem.2.mp hin).1).2
      rw [hcand] at this
      cases this

/-- Closed instance of the search partition: with radius 10, a candidate at
distance exactly 10 (the boundary) is in the nearby bucket, one at distance
30 is in the distant bucket, one at distance 60 is in neither, and a
candidate with a null latitude is in neither. -/
theorem C6_search_partition_witness :
    (svcFix 1 (some 2) (some 3)) ∈
      (serviceSearch 10 (fun s => 10 * s.sid) [svcFix 1 (some 2) (some 3)]).1 ∧
    (svcFix 3 (some 2) (some 3)) ∈
      (serviceSearch 10 (fun s => 10 * s.sid) [svcFix 3 (some 2) (some 3)]).2 ∧
    (svcFix 6 (some 2) (some 3)) ∉
      (serviceSearch 10 (fun s => 10 * s.sid) [svcFix 6 (some 2) (some 3)]).1 ∧
    (svcFix 6 (some 2) (some 3)) ∉
      (serviceSearch 10 (fun s => 10 * s.sid) [svcFix 6 (some 2) (some 3)]).2 ∧
    (svcFix 1 none (some 3)) ∉
      (serviceSearch 10 (fun s => 10 * s.sid) [svcFix 1 none (some 3)]).1 :=
  ⟨(C6_search_partition 10 (fun s => 10 * s.sid) [svcFix 1 (some 2) (some 3)]
      (svcFix 1 (some 2) (some 3)) (by norm_num [svcFix]) (by norm_num [svcFix])).1.mpr
      ⟨List.mem_singleton.mpr rfl, rfl, by norm_num [svcFix]⟩,
    (C6_search_partition 10 (fun s => 10 * s.sid) [svcFix 3 (some 2) (some 3)]
      (svcFix 3 (some 2) (some 3)) (by norm_num [svcFix]) (by norm_num [svcFix])).2.1.mpr
      ⟨List.mem_singleton.mpr rfl, rfl, by norm_num [svcFix], by norm_num [svcFix]⟩,
    ((C6_search_partition 10 (fun s => 10 * s.sid) [svcFix 6 (some 2) (some 3)]
      (svcFix 6 (some 2) (some 3)) (by norm_num [svcFix]) (by norm_num [svcFix])).2.2.1
      (by norm_num [svcFix])).1,
    ((C6_search_partition 10 (fun s => 10 * s.sid) [svcFix 6 (some 2) (some 3)]
      (svcFix 6 (some 2) (some 3)) (by norm_num [svcFix]) (by norm_num [svcFix])).2.2.1
      (by norm_num [svcFix])).2,
    ((C6_search_partition 10 (fun s => 10 * s.sid) [svcFix 1 none (some 3)]
      (svcFix 1 none (some 3)) (by norm_num [svcFix]) (by norm_num [svcFix])).2.2.2
      (Or.inl rfl)).1⟩

/-- C9 counterexample: `update_rating` aggregates the reviews whose *service*
is owned by the user (`service__provider`), not the reviews whose `provider`
field is the user.  A review for provider 1 on a service owned by provider 2
is therefore invisible to the recomputation: after saving it, provider 1's
persisted aggregate stays (0, 0) while the mean over the reviews for
provider 1 is 5 over 1 review. -/
theorem C9_counterexample :
    (reviewModelSave ⟨1, 2, 5⟩ [] (some ⟨0, 0⟩)).2 = some ⟨0, 0⟩ ∧
    specProviderAggregate 1 [⟨1, 2, 5⟩] = ⟨5, 1⟩ ∧
    (⟨0, 0⟩ : ProviderProfile) ≠ (⟨5, 1⟩ : ProviderProfile) := by
  refine ⟨rfl, ?_, ?_⟩
  · norm_num [specProviderAggregate, ratingSum]
  · intro h
    have := congrArg ProviderProfile.total_reviews h
    simp at this

/-- C9 amended: after a review is saved for a provider with a profile, the
persisted aggregate is the arithmetic mean and count of `rating` over all
reviews whose service belongs to that provider; whenever every review's
`provider` field coincides with its service's owner (the only bookings the
interface intends), this equals the mean and count over all reviews for that
provider, as the claim states. -/
theorem C9_rating_recompute (rv : Review) (reviews : List Review)
    (prof : ProviderProfile) :
    (reviewModelSave rv reviews (some prof)).2 =
      some (update_rating rv.provider (rv :: reviews)) ∧
    ((∀ x ∈ rv :: reviews, x.provider = x.serviceProvider) →
      (reviewModelSave rv reviews (some prof)).2 =
        some (specProviderAggregate rv.provider (rv :: reviews))) := by
  refine ⟨rfl, ?_⟩
  intro hcons
  have hfilter : (rv :: reviews).filter (fun x => x.serviceProvider == rv.provider) =
      (rv :: reviews).filter (fun x => x.provider == rv.provider) := by
    apply List.filter_congr
    intro x hx
    rw [hcons x hx]
  show some (update_rating rv.provider (rv :: reviews)) = _
  rw [update_rating, specProviderAggregate, hfilter]

/-- Closed instance of the rating recomputation: a 5-star review by
provider 1 on provider 1's own service yields persisted aggregate (5, 1),
matching the provider-wide mean. -/
theorem C9_rating_recompute_witness :
    (reviewModelSave ⟨1, 1, 5⟩ [] (some ⟨0, 0⟩)).2 =
      some (specProviderAggregate 1 [⟨1, 1, 5⟩]) :=
  (C9_rating_recompute ⟨1, 1, 5⟩ [] ⟨0, 0⟩).2
    (by intro x hx; rcases List.mem_singleton.mp hx with rfl; rfl)

/-- Helper: the haversine distance from a point to itself is zero. -/
theorem haversineKm_self (lat lng : ℚ) : haversineKm lat lng lat lng = 0 := by
  simp only [haversineKm]
  simp [sub_self, zero_div, Real.sin_zero, Real.sqrt_zero, Real.arcsin_zero]

/-- Helper: the calculator returns distance 0 for identical truthy
coordinates. -/
theorem calculate_distance_self (lat lng : ℚ) (h1 : lat ≠ 0) (h2 : lng ≠ 0) :
    calculate_distance lat lng lat lng = some 0 := by
  unfold calculate_distance
  rw [if_neg (by tauto), haversineKm_self]
  norm_num [pyRound2]

/-- Helper: the haversine kernel from (50, 10) to (50.035, 10) evaluates to
exactly 44597π/36000 km (both points on one meridian, 0.035 degrees of
latitude apart). -/
theorem haversineKm_concrete :
    haversineKm 50 10 (10007/200) 10 = 44597 * Real.pi / 36000 := by
  have hpi := Real.pi_pos
  simp only [haversineKm]
  push_cast
  have hdlng : ((10 : ℝ) * Real.pi / 180 - 10 * Real.pi / 180) / 2 = 0 := by
    ring
  have hdlat : ((10007 : ℝ) / 200 * Real.pi / 180 - 50 * Real.pi / 180) / 2 =
      7 * Real.pi / 72000 := by
    ring
  rw [hdlng, hdlat, Real.sin_zero]
  have h0 : (0 : ℝ) ^ 2 = 0 := by norm_num
  rw [h0, mul_zero, add_zero]
  have ht0 : (0 : ℝ) ≤ 7 * Real.pi / 72000 := by positivity
  have htle : 7 * Real.pi / 72000 ≤ Real.pi / 2 := by linarith
  have hsin0 : 0 ≤ Real.sin (7 * Real.pi / 72000) :=
    Real.sin_nonneg_of_nonneg_of_le_pi ht0 (by linarith)
  rw [Real.sqrt_sq hsin0, Real.arcsin_sin (by linarith) htle]
  ring

/-- Helper: the calculator on (50, 10) and (50.035, 10) returns exactly
3.89 km. -/
theorem calculate_distance_concrete :
    calculate_distance 50 10 (10007/200) 10 = some (389/100) := by
  unfold calculate_distance
  rw [if_neg (by norm_num), haversineKm_concrete]
  unfold pyRound2
  have h1 : (100 : ℝ) * (44597 * Real.pi / 36000) = 44597 * Real.pi / 360 := by
    ring
  rw [h1]
  have h2 : round ((44597 : ℝ) * Real.pi / 360) = 389 := by
    rw [round_eq]
    apply Int.floor_eq_iff.mpr
    constructor
    · nlinarith [Real.pi_gt_d4]
    · nlinarith [Real.pi_lt_d4]
  rw [h2]
  norm_num

/-- C8 counterexample: at service address (50, 10) and provider home
(50.035, 10) the computed `distance_km` is 3.89; the code stores
`int(3.89 / 30 * 60) = 7` minutes while the claim's
`round(3.89 / 30 * 60) = 8` minutes, so the travel time is truncated, not
rounded. -/
theorem C8_counterexample :
    (bookingCreateDistance (some 50) (some 10) (some (10007/200)) (some 10)).1 =
      some (389/100) ∧
    (bookingCreateDistance (some 50) (some 10) (some (10007/200)) (some 10)).2 =
      some "7 minutes" ∧
    toString (round ((389 : ℚ)/100 / 30 * 60)) ++ " minutes" = "8 minutes" := by
  have hd : (389 : ℚ)/100 / 30 * 60 = 389/50 := by norm_num
  refine ⟨?_, ?_, ?_⟩
  · simp only [bookingCreateDistance]
    norm_num [pyTruthy, calculate_distance_concrete]
  · simp only [bookingCreateDistance]
    norm_num [pyTruthy, calculate_distance_concrete]
    have h7 : pyIntQ ((389 : ℚ)/50) = 7 := by
      rw [pyIntQ, if_pos (by norm_num)]
      apply Int.floor_eq_iff.mpr
      norm_num
    rw [h7]
    decide
  · have h8 : round ((389 : ℚ)/100 / 30 * 60) = 8 := by
      rw [hd, round_eq]
      apply Int.floor_eq_iff.mpr
      norm_num
    rw [h8]
    decide

/-- C8 amended: on creation, when all four coordinates are truthy the
distance field comes from the haversine calculator, and the stored travel
time is the *truncation* `int(distance / 30 * 60)` minutes (not the rounded
value); when the presence check fails both fields stay null. -/
theorem C8_distance_travel (slat slng plat plng : Option ℚ) :
    ((pyTruthy slat && pyTruthy slng && pyTruthy plat && pyTruthy plng) = false →
      bookingCreateDistance slat slng plat plng = (none, none)) ∧
    ((pyTruthy slat && pyTruthy slng && pyTruthy plat && pyTruthy plng) = true →
      (bookingCreateDistance slat slng plat plng).1 =
        calculate_distance (slat.getD 0) (slng.getD 0) (plat.getD 0) (plng.getD 0)) ∧
    (∀ d : ℚ, (bookingCreateDistance slat slng plat plng).1 = some d → d ≠ 0 →
      (bookingCreateDistance slat slng plat plng).2 =
        some (toString (pyIntQ (d / 30 * 60)) ++ " minutes")) := by
  refine ⟨fun hg => ?_, fun hg => ?_, fun d hd hd0 => ?_⟩
  · simp [bookingCreateDistance, hg]
  · simp [bookingCreateDistance, hg]
  · by_cases hg : (pyTruthy slat && pyTruthy slng && pyTruthy plat && pyTruthy plng) = true
    · simp only [bookingCreateDistance, hg, if_true] at hd ⊢
      simp only [hd]
      rw [if_pos hd0]
    · rw [Bool.not_eq_true] at hg
      simp [bookingCreateDistance, hg] at hd

/-- Closed instance of the truncated travel time: at the concrete
coordinates above the stored travel string is int(3.89 / 30 * 60) minutes. -/
theorem C8_distance_travel_witness :
    (bookingCreateDistance (some 50) (some 10) (some (10007/200)) (some 10)).2 =
      some (toString (pyIntQ ((389 : ℚ)/100 / 30 * 60)) ++ " minutes") :=
  (C8_distance_travel (some 50) (some 10) (some (10007/200)) (some 10)).2.2
    (389/100)
    (by simp only [bookingCreateDistance]
        norm_num [pyTruthy, calculate_distance_concrete])
    (by norm_num)

/-- C10: a coordinate that is present but exactly 0 is treated as missing by
the truthiness-based presence check, so `distance_km` and
`estimated_travel_time` both stay null; and when the computed distance is
exactly 0 the travel-time field stays null. -/
theorem C10_zero_truthiness (slat slng plat plng : Option ℚ) :
    ((slat = some 0 ∨ slng = some 0 ∨ plat = some 0 ∨ plng = some 0) →
      bookingCreateDistance slat slng plat plng = (none, none)) ∧
    (∀ d : ℚ, (bookingCreateDistance slat slng plat plng).1 = some d → d = 0 →
      (bookingCreateDistance slat slng plat plng).2 = none) := by
  constructor
  · intro h0
    have hg : (pyTruthy slat && pyTruthy slng && pyTruthy plat &&
        pyTruthy plng) = false := by
      rcases h0 with h | h | h | h <;> subst h <;> simp [pyTruthy]
    simp [bookingCreateDistance, hg]
  · intro d hd hd0
    by_cases hg : (pyTruthy slat && pyTruthy slng && pyTruthy plat &&
        pyTruthy plng) = true
    · subst hd0
      simp only [bookingCreateDistance, hg, if_true] at hd ⊢
      simp only [hd]
      simp
    · rw [Bool.not_eq_true] at hg
      simp [bookingCreateDistance, hg] at hd

/-- Closed instance of the zero-coordinate behaviour: a service latitude of
exactly 0 nulls both derived fields, and identical truthy coordinates (the
computed distance is 0) leave the travel time null. -/
theorem C10_zero_truthiness_witness :
    bookingCreateDistance (some 0) (some 10) (some 20) (some 30) =
      (none, none) ∧
    (bookingCreateDistance (some 50) (some 10) (some 50) (some 10)).2 = none :=
  ⟨(C10_zero_truthiness (some 0) (some 10) (some 20) (some 30)).1 (Or.inl rfl),
    (C10_zero_truthiness (some 50) (some 10) (some 50) (some 10)).2 0
      (by simp only [bookingCreateDistance]
          norm_num [pyTruthy,
            calculate_distance_self 50 10 (by norm_num) (by norm_num)])
      rfl⟩

end ServiceFinder
